import Mathlib

/-!
Verification of the encuesta-mercado survey system: a shallow embedding of the
aggregation, CSV-export, submission and server-login logic of
`src/components/AdminPanel.js`, `src/components/SurveyForm.js` and
`src/backend/server.js`, together with theorems settling the specification
claims about them.

JavaScript strings are modelled as Lean `String` (lists of characters),
JavaScript numbers arising in this code are modelled exactly: integer counters
as `Nat`/`Int` (exact in binary64 while below `2 ^ 53`), the one inexact
floating-point operation — the rating-average division — by rounding the
exact rational quotient to the nearest binary64 value (`roundDouble`), and
`NaN` propagation as `Option`.  JavaScript objects used as string-keyed
counter dictionaries are modelled as insertion-ordered association lists with
unique keys, exactly the observable behaviour of a JS object.
-/

namespace EncuestaMercado

/-! ### JavaScript string primitives used by the code -/

/-- Decimal value of a list of digit characters, most significant first. -/
def digitsToNat (l : List Char) : Nat :=
  l.foldl (fun a c => 10 * a + (c.toNat - 48)) 0

/-- Hexadecimal digit test, as in JS `parseInt` with a `0x` prefix. -/
def isHexDigitJS (c : Char) : Bool :=
  c.isDigit || ('a' ≤ c && c ≤ 'f') || ('A' ≤ c && c ≤ 'F')

/-- Value of one hexadecimal digit character. -/
def hexDigitVal (c : Char) : Nat :=
  if c.isDigit then c.toNat - 48
  else if 'a' ≤ c && c ≤ 'f' then c.toNat - 87
  else c.toNat - 55

/-- Hexadecimal value of a list of hex-digit characters. -/
def hexToNat (l : List Char) : Nat :=
  l.foldl (fun a c => 16 * a + hexDigitVal c) 0

/-- The hex branch of JS `parseInt`: digits after a `0x`/`0X` prefix;
`NaN` (here `none`) when no hex digit follows the prefix. -/
def parseHexTail (l : List Char) : Option Nat :=
  let ds := l.takeWhile isHexDigitJS
  if ds.isEmpty then none else some (hexToNat ds)

/-- Unsigned part of JS `parseInt` with the default radix: a `0x`/`0X`
prefix switches to hexadecimal, otherwise the longest leading run of
decimal digits is taken; no digit at all gives `NaN` (`none`). -/
def parseUnsignedJS : List Char → Option Nat
  | '0' :: 'x' :: rest => parseHexTail rest
  | '0' :: 'X' :: rest => parseHexTail rest
  | l =>
    let ds := l.takeWhile Char.isDigit
    if ds.isEmpty then none else some (digitsToNat ds)

/-- Embedding of JavaScript `parseInt(s)` (default radix): leading
whitespace is skipped, an optional sign is read, then `parseUnsignedJS`;
`none` models `NaN`.  (The JS whitespace set is modelled by
`Char.isWhitespace`; the strings this program feeds to `parseInt` contain
no exotic whitespace.) -/
def parseIntJS (s : String) : Option Int :=
  match s.data.dropWhile Char.isWhitespace with
  | '-' :: rest => (parseUnsignedJS rest).map (fun n => -(n : Int))
  | '+' :: rest => (parseUnsignedJS rest).map (fun n => (n : Int))
  | l => (parseUnsignedJS l).map (fun n => (n : Int))

/-- Embedding of JavaScript `s.split(', ')` at the character level:
non-overlapping occurrences of the two-character separator `", "` are
found left to right and the pieces between them are returned. -/
def splitC : List Char → List (List Char)
  | [] => [[]]
  | [c] => [[c]]
  | c :: d :: rest =>
    if c = ',' && d = ' ' then [] :: splitC rest
    else
      match splitC (d :: rest) with
      | [] => [[c]]
      | g :: gs => (c :: g) :: gs

/-- Embedding of JavaScript `arr.join(', ')` at the character level. -/
def joinC : List (List Char) → List Char
  | [] => []
  | [t] => t
  | t :: u :: rest => t ++ ',' :: ' ' :: joinC (u :: rest)

/-- Does the two-character separator `", "` occur in the list? -/
def hasSep : List Char → Bool
  | [] => false
  | [_] => false
  | c :: d :: rest => (c = ',' && d = ' ') || hasSep (d :: rest)

/-- Character-level body of JS `s.replace(/"/g, '""')`: every double-quote
character is doubled. -/
def escC : List Char → List Char
  | [] => []
  | c :: rest => if c = '"' then '"' :: '"' :: escC rest else c :: escC rest

/-- Embedding of `s.replace(/"/g, '""')` (AdminPanel.js line 58). -/
def escapeQuotes (s : String) : String := ⟨escC s.data⟩

/-! ### Data model -/

/-- A survey document as persisted by the store (`server.js` lines 21-32):
all fields are strings; an absent or empty field is modelled as `""`
(exactly the strings that are falsy in JavaScript).  `createdAtDateStr` and
`createdAtTimeStr` stand for the locale rendering of the store-assigned
`createdAt` timestamp used as a fallback at fetch time; locale formatting
itself is outside the model. -/
structure StoredItem where
  _id : String := ""
  nombre : String := ""
  puesto : String := ""
  telefono : String := ""
  seguridad : String := ""
  problemas : String := ""
  sugerencia : String := ""
  calificacion : String := ""
  fecha : String := ""
  hora : String := ""
  createdAtDateStr : String := ""
  createdAtTimeStr : String := ""
  deriving DecidableEq, Repr

/-- An in-memory survey record as held in the admin panel's `surveys`
state after fetching (`AdminPanel.js` lines 23-35). -/
structure Survey where
  id : String := ""
  fecha : String := ""
  hora : String := ""
  nombre : String := ""
  puesto : String := ""
  telefono : String := ""
  seguridad : String := ""
  problemas : List String := []
  sugerencia : String := ""
  calificacion : String := ""
  synced : Bool := true
  deriving DecidableEq, Repr

/-- Embedding of `item.problemas ? item.problemas.split(', ') : []`
(AdminPanel.js line 31): the empty (falsy) stored string gives the empty
list, any other string is split on `", "`. -/
def fetchProblemas (p : String) : List String :=
  if p = "" then [] else (splitC p.data).map (fun l => ⟨l⟩)

/-- Embedding of the per-item mapping in `fetchSurveys`
(AdminPanel.js lines 23-35); `x || d` on strings is `if x = "" then d else x`. -/
def fetchMapItem (it : StoredItem) : Survey where
  id := it._id
  fecha := if it.fecha = "" then it.createdAtDateStr else it.fecha
  hora := if it.hora = "" then it.createdAtTimeStr else it.hora
  nombre := it.nombre
  puesto := if it.puesto = "" then "No especificado" else it.puesto
  telefono := if it.telefono = "" then "No proporcionado" else it.telefono
  seguridad := it.seguridad
  problemas := fetchProblemas it.problemas
  sugerencia := if it.sugerencia = "" then "Ninguna sugerencia" else it.sugerencia
  calificacion := if it.calificacion = "" then "3" else it.calificacion
  synced := true

/-- Embedding of `response.data.map(item => ...)` in `fetchSurveys`. -/
def fetchSurveysMap (items : List StoredItem) : List Survey :=
  items.map fetchMapItem

/-- Embedding of `formData.problemas.join(', ')` in `handleSubmit`
(SurveyForm.js line 44). -/
def joinProblemas (problemas : List String) : String :=
  ⟨joinC (problemas.map String.data)⟩

/-- The fixed issue-tag vocabulary of the survey form's checkboxes
(SurveyForm.js lines 147-154). -/
def issuesVocabulary : List String :=
  ["robo", "iluminacion", "vigilancia", "acceso", "emergencia", "otros"]

/-! ### Statistics aggregation (AdminPanel.js lines 87-114)

A JavaScript object used as a counter dictionary is modelled as an
insertion-ordered association list with unique keys: `stats[k] = (stats[k] || 0) + 1`
increments the entry of `k` if present and otherwise appends `(k, 1)`. -/

/-- One `stats[k] = (stats[k] || 0) + 1` step on a counter object. -/
def bump : List (String × Nat) → String → List (String × Nat)
  | [], k => [(k, 1)]
  | (k', v) :: rest, k =>
    if k' = k then (k', v + 1) :: rest else (k', v) :: bump rest k

/-- The counter object obtained by bumping once per list element, in order. -/
def countMap (l : List String) : List (String × Nat) :=
  l.foldl bump []

/-- `stats[k] || 0`: the count stored under a key, `0` when absent. -/
def getCount : List (String × Nat) → String → Nat
  | [], _ => 0
  | (k', v) :: rest, k => if k' = k then v else getCount rest k

/-- Sum of all counts of a counter object. -/
def sumValues (stats : List (String × Nat)) : Nat :=
  (stats.map (fun e => e.2)).sum

/-- `seguridadStats` (AdminPanel.js line 93). -/
def seguridadStats (surveys : List Survey) : List (String × Nat) :=
  countMap (surveys.map (fun e => e.seguridad))

/-- `calificacionStats` (AdminPanel.js line 94). -/
def calificacionStats (surveys : List Survey) : List (String × Nat) :=
  countMap (surveys.map (fun e => e.calificacion))

/-- `problemasStats` (AdminPanel.js lines 96-100): one bump per issue tag of
each record, records in order, a record's tags in order. -/
def problemasStats (surveys : List Survey) : List (String × Nat) :=
  countMap (surveys.flatMap (fun e => e.problemas))

/-- `totalCalificaciones` (AdminPanel.js lines 103-104):
`Σ parseInt(cal) * count` over the entries of `calificacionStats`.
`none` models the `NaN` that a non-parsing key propagates into the sum.
(The reduce visits entries in the object's enumeration order; the sum does
not depend on that order.) -/
def totalCalificaciones : List (String × Nat) → Option Int
  | [] => some 0
  | (k, v) :: rest =>
    match parseIntJS k, totalCalificaciones rest with
    | some x, some t => some (x * v + t)
    | _, _ => none

/-- Fueled binary logarithm: `⌊log2 n⌋` for `n ≥ 1` (and `0` for `n = 0`),
written with structural recursion on a fuel argument so that concrete
instances reduce inside the kernel. -/
def log2Fuel : Nat → Nat → Nat
  | 0, _ => 0
  | fuel + 1, n => if n ≤ 1 then 0 else log2Fuel fuel (n / 2) + 1

/-- `⌊log2 n⌋` for `n ≥ 1` (`n` itself is always enough fuel, since the
argument at least halves at every step). -/
def natLog2 (n : Nat) : Nat := log2Fuel n n

/-- Round the fraction `a / b` (for `b > 0`) to the nearest integer, ties
to the even integer — the IEEE-754 rounding of a real to a grid. -/
def rneInt (a b : ℤ) : ℤ :=
  let q := Int.fdiv a b
  let r := a - b * q
  if 2 * r < b then q
  else if b < 2 * r then q + 1
  else if q % 2 = 0 then q else q + 1

/-- Exact comparison `|num / den| < 2 ^ e` for `den > 0` and `e : ℤ`. -/
def absLtPow2 (num : ℤ) (den : ℕ) (e : ℤ) : Bool :=
  if 0 ≤ e then num.natAbs < den * 2 ^ e.toNat
  else num.natAbs * 2 ^ (-e).toNat < den

/-- `⌊log2 |num / den|⌋` for `num ≠ 0`: first guess from the integer
binary logarithms of numerator and denominator (which is off by at most
one), then correct it by exact comparison with the neighbouring powers. -/
def floorLog2 (num : ℤ) (den : ℕ) : ℤ :=
  let e0 : ℤ := (natLog2 num.natAbs : ℤ) - (natLog2 den : ℤ)
  if !absLtPow2 num den (e0 + 1) then e0 + 1
  else if !absLtPow2 num den e0 then e0
  else e0 - 1

/-- Mantissa and ulp exponent of the binary64 (IEEE-754 double) value
nearest to `num / den` (for `den > 0`, `num ≠ 0`): the value is
`k * 2 ^ t` where `t = max (⌊log2 |x|⌋) (-1022) - 52` is the exponent of
one unit in the last place of the binade of `x` (the `max` handles the
subnormal range) and `k` is the nearest integer to `x / 2 ^ t`, ties to
even.  Overflow to infinity (`|x| ≥ 2 ^ 1024`) is not modelled; the
quotients this file rounds lie far inside the finite range. -/
def roundDoubleKT (num : ℤ) (den : ℕ) : ℤ × ℤ :=
  let t : ℤ := max (floorLog2 num den) (-1022) - 52
  let k : ℤ :=
    if 0 ≤ t then rneInt num ((den : ℤ) * 2 ^ t.toNat)
    else rneInt (num * 2 ^ (-t).toNat) (den : ℤ)
  (k, t)

/-- The exact rational value `k * 2 ^ t` of a mantissa/exponent pair. -/
def assembleKT (kt : ℤ × ℤ) : ℚ :=
  if 0 ≤ kt.2 then (kt.1 : ℚ) * (2 ^ kt.2.toNat : ℚ)
  else (kt.1 : ℚ) / (2 ^ (-kt.2).toNat : ℚ)

/-- The binary64 double nearest to `q`, as an exact rational: an IEEE-754
operation whose operands are exactly representable and whose exact result
is `q` produces exactly this value (round to nearest, ties to even). -/
def roundDouble (q : ℚ) : ℚ :=
  if q = 0 then 0 else assembleKT (roundDoubleKT q.num q.den)

/-- Exact-decimal model of `x.toFixed(1)` for a finite double `x` (taken
here as its exact rational value): the value `n / 10` for the integer `n`
closest to `x`, ties resolved to the larger `n`, which is
`⌊10 x + 1/2⌋ / 10`. -/
def toFixed1 (q : ℚ) : ℚ := (⌊10 * q + 1 / 2⌋ : ℚ) / 10

/-- `promedioCalificacion` (AdminPanel.js line 105):
`surveys.length > 0 ? (totalCalificaciones / surveys.length).toFixed(1) : 0`.
The program divides IEEE-754 doubles, so the quotient is the binary64
rounding of the exact ratio: this is modelled by `roundDouble` applied to
the exact rational quotient, and `toFixed(1)` then rounds that double's
exact value to one decimal.  (The integer operands themselves are modelled
exactly; this matches the program whenever they stay below `2 ^ 53`, which
the ratings `1..5` and the `2 ^ 32 - 1` JavaScript array-length cap
guarantee.)  `none` models the `NaN` display value. -/
def promedioCalificacion (surveys : List Survey) : Option ℚ :=
  if 0 < surveys.length then
    (totalCalificaciones (calificacionStats surveys)).map
      (fun t => toFixed1 (roundDouble ((t : ℚ) / (surveys.length : ℚ))))
  else some 0

/-- Decimal value of a digit string (used only to order JS integer-like
object keys). -/
def strToNat (s : String) : Nat := digitsToNat s.data

/-- Is the string a JavaScript array-index key: the canonical decimal
numeral of an integer below `2^32 - 1`?  `Object.entries` enumerates such
keys first, in ascending numeric order. -/
def isArrayIndexKey (s : String) : Bool :=
  !s.data.isEmpty && s.data.all Char.isDigit &&
    (s.data = ['0'] || s.data.head? ≠ some '0') && strToNat s < 2 ^ 32 - 1

/-- Enumeration order of `Object.entries` on a counter object whose
entries were created in the list's order: array-index keys first in
ascending numeric order, then the remaining keys in insertion order. -/
def jsEntries (stats : List (String × Nat)) : List (String × Nat) :=
  List.insertionSort (fun a b => strToNat a.1 ≤ strToNat b.1)
    (stats.filter (fun e => isArrayIndexKey e.1))
  ++ stats.filter (fun e => !isArrayIndexKey e.1)

/-- The stable descending-by-count sort `.sort((a, b) => b[1] - a[1])`
(ECMAScript sort is stable); a stable sort is uniquely determined by the
comparator, so insertion sort with `b.2 ≤ a.2` is an exact model. -/
def sortByCountDesc (l : List (String × Nat)) : List (String × Nat) :=
  List.insertionSort (fun a b => b.2 ≤ a.2) l

/-- The top-issues list (AdminPanel.js line 205):
`Object.entries(problemasStats).sort((a, b) => b[1] - a[1]).slice(0, 5)`. -/
def topIssues (surveys : List Survey) : List (String × Nat) :=
  (sortByCountDesc (jsEntries (problemasStats surveys))).take 5

/-! ### CSV export (AdminPanel.js lines 46-75) -/

/-- The `problemas` CSV field (AdminPanel.js line 57):
`e.problemas && e.problemas.length > 0 ? e.problemas.join('; ') : 'Ninguno'`
(`e.problemas` is always an array here, so the guard is its nonemptiness). -/
def csvProblemas (problemas : List String) : String :=
  if 0 < problemas.length then String.intercalate "; " problemas else "Ninguno"

/-- The `sugerencia` CSV field (AdminPanel.js line 58):
`(e.sugerencia || 'Ninguna').replace(/"/g, '""')`. -/
def csvSugerencia (sugerencia : String) : String :=
  escapeQuotes (if sugerencia = "" then "Ninguna" else sugerencia)

/-- One CSV data row (AdminPanel.js line 59), the template literal
`"${e.id}","${e.fecha}",...,"${problemas}","${sugerencia}"` plus newline. -/
def exportRow (e : Survey) : String :=
  "\"" ++ e.id ++ "\",\"" ++ e.fecha ++ "\",\"" ++ e.hora ++ "\",\"" ++
    e.nombre ++ "\",\"" ++ e.puesto ++ "\",\"" ++ e.telefono ++ "\",\"" ++
    e.seguridad ++ "\",\"" ++ e.calificacion ++ "\",\"" ++
    csvProblemas e.problemas ++ "\",\"" ++ csvSugerencia e.sugerencia ++ "\"\n"

/-- The fixed CSV header row (AdminPanel.js line 55). -/
def csvHeader : String :=
  "ID,Fecha,Hora,Nombre,Puesto,Teléfono,Seguridad,Calificación,Problemas,Sugerencias\n"

/-- The whole CSV text accumulated by the `forEach` loop. -/
def exportCsv (surveys : List Survey) : String :=
  surveys.foldl (fun csv e => csv ++ exportRow e) csvHeader

/-- The user-facing alert kinds the panel can raise; the `danger` alert
carries the error message it surfaces (alert display text is UI chrome and
not modelled beyond this). -/
inductive AlertKind where
  | success
  | warning
  | danger (msg : String)
  deriving DecidableEq, Repr

/-- Outcome of invoking `exportResults`: which alert was raised and the
file content produced, if any. -/
structure ExportOutcome where
  alert : AlertKind
  file : Option String
  deriving DecidableEq, Repr

/-- Embedding of `exportResults` (AdminPanel.js lines 46-75): with no
records it raises the warning alert and returns without building a blob;
otherwise it builds the CSV blob and raises the success alert.  The
function is total: no code path throws. -/
def exportResults (surveys : List Survey) : ExportOutcome :=
  if surveys.length = 0 then
    { alert := .warning, file := none }
  else
    { alert := .success, file := some (exportCsv surveys) }

/-! ### Panel state machine (AdminPanel.js lines 18-44 and 77-85) -/

/-- The component state touched by the handlers under study. -/
structure PanelState where
  surveys : List Survey
  alert : Option AlertKind
  deriving DecidableEq, Repr

/-- The requests a handler may issue against the backing store. -/
inductive StoreRequest where
  | getAll
  | post (item : StoredItem)
  | deleteAll
  deriving DecidableEq, Repr

/-- Store semantics of one request: reads leave the collection unchanged,
a post appends, a delete-all would empty it. -/
def applyStore (store : List StoredItem) : StoreRequest → List StoredItem
  | .getAll => store
  | .post it => store ++ [it]
  | .deleteAll => []

/-- Embedding of `fetchSurveys` (AdminPanel.js lines 18-44) as a state
transition on the panel, parameterised by the outcome of the one-shot
`axios.get`: on success the state holds the mapped records and a success
alert; on failure only a danger alert carrying the error message is set and
`surveys` is not written. -/
def fetchSurveysStep (st : PanelState) :
    Except String (List StoredItem) → PanelState
  | .ok items => { surveys := fetchSurveysMap items, alert := some .success }
  | .error msg => { surveys := st.surveys, alert := some (.danger msg) }

/-- Embedding of the confirmed branch of `clearResults`
(AdminPanel.js lines 77-85): the new panel state and the list of store
requests the handler issues (none: the code only calls `setSurveys([])`
and `setAlert`). -/
def clearResultsAction (_st : PanelState) : PanelState × List StoreRequest :=
  ({ surveys := [], alert := some .success }, [])

/-! ### Server login (server.js lines 67-80) -/

/-- An administrator document in the user collection (server.js lines 36-41). -/
structure UserRec where
  usuario : String
  email : String
  password : String
  deriving DecidableEq, Repr

/-- `User.findOne({ usuario })`: the first document matching the name. -/
def findUser (db : List UserRec) (usuario : String) : Option UserRec :=
  db.find? (fun u => u.usuario = usuario)

/-- The responses of `POST /api/login`. -/
inductive LoginResult where
  | ok (usuario email : String)
  | unauthorized
  | serverError
  deriving DecidableEq, Repr

/-- Embedding of the login handler (server.js lines 68-80) for the case
in which the store query itself succeeds: `!user || user.password !== password`
answers 401, otherwise 200 with the user's public fields.  The `catch`
branch (500) is reachable only when the store query throws. -/
def loginHandler (db : List UserRec) (usuario password : String) : LoginResult :=
  match findUser db usuario with
  | none => .unauthorized
  | some user =>
    if user.password ≠ password then .unauthorized
    else .ok user.usuario user.email

/-! ### Spec-side definitions

These follow the specification's words, for comparison with the embeddings
above; they are not translations of the source. -/

/-- Spec reading of an issue string: split the stored delimited string on
`", "` and discard empty resulting tokens. -/
def specTags (p : String) : List String :=
  ((splitC p.data).map (fun l => (⟨l⟩ : String))).filter (fun t => t ≠ "")

/-- Spec reading of one `issueCounts` value: the number of records whose
(spec-split) tag set contains the tag. -/
def specIssueRecordCount (items : List StoredItem) (tag : String) : Nat :=
  (items.filter (fun it => tag ∈ specTags it.problemas)).length

/-- Spec reading of `averageRating`: the ratings parsed as integers with
unparsable/missing values contributing 0, summed, divided by the total
record count, rounded to one decimal place; 0 for the empty sequence. -/
def averageRatingSpec (items : List StoredItem) : ℚ :=
  if items.length = 0 then 0
  else
    toFixed1
      (((items.map (fun it => ((parseIntJS it.calificacion).getD 0 : ℚ))).sum) /
        (items.length : ℚ))

/-- Spec reading of `topIssues`: the `issueCounts` entries in encounter
order, stably sorted descending by count, truncated to the first 5. -/
def specTopIssues (surveys : List Survey) : List (String × Nat) :=
  (sortByCountDesc (problemasStats surveys)).take 5

/-! ### Counter-object lemmas -/

/-- Sum of `parseInt(key) * value` over the entries, with unparsable keys
read as 0 (the `NaN`-free shadow of `totalCalificaciones`). -/
def totalOf (stats : List (String × Nat)) : Int :=
  (stats.map (fun e => ((parseIntJS e.1).getD 0) * (e.2 : Int))).sum

theorem bump_cons_pos (k : String) (v : Nat) (rest : List (String × Nat)) :
    bump ((k, v) :: rest) k = (k, v + 1) :: rest := by
  simp [bump]

theorem bump_cons_neg {k' k : String} (v : Nat) (rest : List (String × Nat))
    (h : k' ≠ k) : bump ((k', v) :: rest) k = (k', v) :: bump rest k := by
  simp [bump, h]

theorem getCount_bump (s : List (String × Nat)) (k a : String) :
    getCount (bump s k) a = getCount s a + (if a = k then 1 else 0) := by
  induction s with
  | nil =>
    rcases eq_or_ne a k with h | h
    · simp [bump, getCount, h]
    · simp [bump, getCount, h, Ne.symm h]
  | cons e rest ih =>
    obtain ⟨k', v⟩ := e
    by_cases hk : k' = k
    · subst hk
      rcases eq_or_ne k' a with ha | ha
      · subst ha
        simp [bump, getCount]
      · simp [bump, getCount, ha, Ne.symm ha]
    · rcases eq_or_ne k' a with ha | ha
      · have hak : ¬a = k := fun h => hk (ha.trans h)
        simp [bump, getCount, hk, ha, hak]
      · simp [bump, getCount, hk, ha, ih]

theorem sumValues_bump (s : List (String × Nat)) (k : String) :
    sumValues (bump s k) = sumValues s + 1 := by
  induction s with
  | nil => simp [bump, sumValues]
  | cons e rest ih =>
    obtain ⟨k', v⟩ := e
    by_cases hk : k' = k <;> simp [bump, sumValues, hk] <;>
      simp [sumValues] at ih <;> omega

theorem totalOf_bump (s : List (String × Nat)) (k : String) :
    totalOf (bump s k) = totalOf s + (parseIntJS k).getD 0 := by
  induction s with
  | nil => simp [bump, totalOf]
  | cons e rest ih =>
    obtain ⟨k', v⟩ := e
    by_cases hk : k' = k
    · subst hk
      rw [bump_cons_pos]
      simp only [totalOf, List.map_cons, List.sum_cons]
      push_cast
      ring
    · rw [bump_cons_neg v rest hk]
      simp only [totalOf, List.map_cons, List.sum_cons] at ih ⊢
      rw [ih]
      ring

theorem mem_keys_bump {s : List (String × Nat)} {k a : String}
    (h : a ∈ (bump s k).map (fun e => e.1)) :
    a ∈ s.map (fun e => e.1) ∨ a = k := by
  induction s with
  | nil =>
    simp [bump] at h
    exact Or.inr h
  | cons e rest ih =>
    obtain ⟨k', v⟩ := e
    by_cases hk : k' = k
    · subst hk
      left
      simpa [bump] using h
    · simp only [bump, if_neg hk, List.map_cons, List.mem_cons] at h
      rcases h with h | h
      · exact Or.inl (by simp [h])
      · rcases ih h with h' | h'
        · left
          simp only [List.map_cons, List.mem_cons]
          exact Or.inr h'
        · exact Or.inr h'

theorem totalCalificaciones_eq_some (s : List (String × Nat))
    (h : ∀ e ∈ s, (parseIntJS e.1).isSome = true) :
    totalCalificaciones s = some (totalOf s) := by
  induction s with
  | nil => simp [totalCalificaciones, totalOf]
  | cons e rest ih =>
    obtain ⟨k, v⟩ := e
    have hk : (parseIntJS k).isSome = true := h (k, v) (by simp)
    obtain ⟨x, hx⟩ := Option.isSome_iff_exists.mp hk
    have hrest := ih (fun e he => h e (by simp [he]))
    simp [totalCalificaciones, hx, hrest, totalOf]

theorem countMap_concat (l : List String) (a : String) :
    countMap (l ++ [a]) = bump (countMap l) a := by
  simp [countMap, List.foldl_append]

theorem getCount_countMap (l : List String) (a : String) :
    getCount (countMap l) a = l.count a := by
  induction l using List.reverseRecOn with
  | nil => simp [countMap, getCount]
  | append_singleton xs x ih =>
    rw [countMap_concat, getCount_bump, ih]
    by_cases h : a = x <;>
      simp [List.count_append, h, List.count_singleton]

theorem sumValues_countMap (l : List String) :
    sumValues (countMap l) = l.length := by
  induction l using List.reverseRecOn with
  | nil => simp [countMap, sumValues]
  | append_singleton xs x ih =>
    rw [countMap_concat, sumValues_bump, ih]
    simp

theorem mem_keys_countMap {l : List String} {a : String}
    (h : a ∈ (countMap l).map (fun e => e.1)) : a ∈ l := by
  induction l using List.reverseRecOn with
  | nil => simp [countMap] at h
  | append_singleton xs x ih =>
    rw [countMap_concat] at h
    rcases mem_keys_bump h with h' | h'
    · exact List.mem_append_left _ (ih h')
    · simp [h']

theorem totalOf_countMap (l : List String) :
    totalOf (countMap l) = (l.map (fun k => (parseIntJS k).getD 0)).sum := by
  induction l using List.reverseRecOn with
  | nil => simp [countMap, totalOf]
  | append_singleton xs x ih =>
    rw [countMap_concat, totalOf_bump, ih]
    simp

/-! ### Split/join lemmas -/

theorem splitC_sep_left (t r : List Char) (h : hasSep t = false) :
    splitC (t ++ ',' :: ' ' :: r) = t :: splitC r := by
  induction t with
  | nil => simp [splitC]
  | cons c t ih =>
    cases t with
    | nil => simp [splitC]
    | cons d t' =>
      simp only [hasSep, Bool.or_eq_false_iff, Bool.and_eq_false_iff] at h
      obtain ⟨h1, h2⟩ := h
      have hih := ih h2
      simp only [List.cons_append] at hih ⊢
      rcases h1 with h1 | h1 <;> simp [splitC, h1, hih]

theorem splitC_no_sep (t : List Char) (h : hasSep t = false) :
    splitC t = [t] := by
  induction t with
  | nil => simp [splitC]
  | cons c t ih =>
    cases t with
    | nil => simp [splitC]
    | cons d t' =>
      simp only [hasSep, Bool.or_eq_false_iff, Bool.and_eq_false_iff] at h
      obtain ⟨h1, h2⟩ := h
      have hih := ih h2
      rcases h1 with h1 | h1 <;> simp [splitC, h1, hih]

theorem splitC_joinC (ts : List (List Char)) (hne : ts ≠ [])
    (h : ∀ t ∈ ts, hasSep t = false) : splitC (joinC ts) = ts := by
  induction ts with
  | nil => exact absurd rfl hne
  | cons t ts ih =>
    cases ts with
    | nil =>
      simp only [joinC]
      exact splitC_no_sep t (h t (by simp))
    | cons u ts' =>
      simp only [joinC]
      rw [splitC_sep_left t _ (h t (by simp))]
      rw [ih (by simp) (fun x hx => h x (by simp [hx]))]

theorem joinC_cons_ne_nil (t : List Char) (rest : List (List Char))
    (h : t ≠ []) : joinC (t :: rest) ≠ [] := by
  cases rest with
  | nil => simpa [joinC] using h
  | cons u rest' =>
    simp only [joinC]
    intro hc
    exact h (List.append_eq_nil.mp hc).1

/-! ### Bridging lemmas -/

theorem vocab_data_ne_nil : ∀ t ∈ issuesVocabulary, t.data ≠ [] := by decide

theorem vocab_no_sep : ∀ t ∈ issuesVocabulary, hasSep t.data = false := by decide

theorem mk_eq_empty_iff (l : List Char) : ((⟨l⟩ : String) = "") ↔ l = [] := by
  constructor
  · intro h
    simpa using congrArg String.data h
  · intro h
    subst h
    rfl

theorem calificacion_fetchMap (items : List StoredItem) :
    (fetchSurveysMap items).map (fun e => e.calificacion) =
      items.map (fun it => if it.calificacion = "" then "3" else it.calificacion) := by
  rw [fetchSurveysMap, List.map_map]
  rfl

theorem seguridad_fetchMap (items : List StoredItem) :
    (fetchSurveysMap items).map (fun e => e.seguridad) =
      items.map (fun it => it.seguridad) := by
  rw [fetchSurveysMap, List.map_map]
  rfl

theorem problemasStats_fetch (items : List StoredItem) :
    problemasStats (fetchSurveysMap items) =
      countMap (items.flatMap (fun it => fetchProblemas it.problemas)) := by
  rw [problemasStats, fetchSurveysMap, List.flatMap_map]
  rfl

theorem count_flatMap {α : Type} (l : List α) (f : α → List String) (t : String) :
    ((l.flatMap f).count t) = (l.map (fun a => (f a).count t)).sum := by
  induction l with
  | nil => simp
  | cons a l ih => simp [List.flatMap_cons, ih]

theorem length_flatMap {α : Type} (l : List α) (f : α → List String) :
    (l.flatMap f).length = (l.map (fun a => (f a).length)).sum := by
  induction l with
  | nil => simp
  | cons a l ih => simp [List.flatMap_cons, ih]

theorem jsEntries_of_no_index (stats : List (String × Nat))
    (h : ∀ e ∈ stats, isArrayIndexKey e.1 = false) : jsEntries stats = stats := by
  have h1 : stats.filter (fun e => isArrayIndexKey e.1) = [] :=
    List.filter_eq_nil_iff.mpr (by intro a ha; simp [h a ha])
  have h2 : stats.filter (fun e => !isArrayIndexKey e.1) = stats :=
    List.filter_eq_self.mpr (by intro a ha; simp [h a ha])
  rw [jsEntries, h1, h2]
  simp [List.insertionSort]

theorem escC_flatMap (l : List Char) :
    escC l = l.flatMap (fun c => if c = '"' then ['"', '"'] else [c]) := by
  induction l with
  | nil => rfl
  | cons c rest ih =>
    by_cases h : c = '"' <;> simp [escC, h, ih]

theorem toFixed1_intCast (n : ℤ) : toFixed1 (n : ℚ) = (n : ℚ) := by
  rw [toFixed1]
  have : ⌊10 * (n : ℚ) + 1 / 2⌋ = 10 * n := by
    rw [Int.floor_eq_iff]
    constructor
    · push_cast
      linarith
    · push_cast
      linarith
  rw [this]
  push_cast
  ring

/-! ### Claim theorems -/

/-- C5: every CSV data row consists of the record's fields, each wrapped in
double quotes, in the fixed header order (ID, Fecha, Hora, Nombre, Puesto,
Teléfono, Seguridad, Calificación, Problemas, Sugerencias), joined by
commas; the empty issue list renders as the literal token `Ninguno` and a
non-empty one re-joined with `"; "`; an empty suggestion renders as
`Ninguna`; every double-quote character of the suggestion text is doubled
before the field is wrapped, so the suggestion `He said "hi"` renders as
`"He said ""hi"""`. -/
theorem c5_csv_row_escaping (e : Survey) :
    exportRow e =
      String.intercalate ","
        ([e.id, e.fecha, e.hora, e.nombre, e.puesto, e.telefono, e.seguridad,
            e.calificacion, csvProblemas e.problemas,
            csvSugerencia e.sugerencia].map (fun f => "\"" ++ f ++ "\"")) ++ "\n" ∧
    (∀ p : List String,
      csvProblemas p = if p = [] then "Ninguno" else String.intercalate "; " p) ∧
    csvSugerencia "" = "Ninguna" ∧
    (∀ s : String, (escapeQuotes s).data =
      s.data.flatMap (fun c => if c = '"' then ['"', '"'] else [c])) ∧
    "\"" ++ csvSugerencia "He said \"hi\"" ++ "\"" = "\"He said \"\"hi\"\"\"" := by
  refine ⟨?_, ?_, by decide, fun s => escC_flatMap s.data, by decide⟩
  · apply String.ext
    have d1 : ("\"" : String).data = ['"'] := rfl
    have d2 : ("\",\"" : String).data = ['"', ',', '"'] := rfl
    have d3 : ("\"\n" : String).data = ['"', '\n'] := rfl
    have d4 : ("," : String).data = [','] := rfl
    have d5 : ("\n" : String).data = ['\n'] := rfl
    simp [exportRow, String.intercalate, String.intercalate.go, String.data_append,
      d1, d2, d3, d4, d5]
  · intro p
    cases p with
    | nil => rfl
    | cons a p' => simp [csvProblemas]

/-- C6: invoking the CSV export on the empty record sequence produces no
file and raises the user-facing warning alert; the embedded handler is a
total function, so no exception is raised. -/
theorem c6_export_empty_no_file :
    (exportResults []).file = none ∧ (exportResults []).alert = AlertKind.warning :=
  ⟨rfl, rfl⟩

/-- C7: when the bulk fetch fails, the panel's record list is exactly the
prior one (no partial-success state) and a danger alert carrying the error
message is surfaced. -/
theorem c7_fetch_failure_frame (st : PanelState) (msg : String) :
    (fetchSurveysStep st (Except.error msg)).surveys = st.surveys ∧
    (fetchSurveysStep st (Except.error msg)).alert = some (AlertKind.danger msg) :=
  ⟨rfl, rfl⟩

/-- C8: the clear-all-data handler issues no store request (in particular
no delete), so the backing store is unchanged; it empties only the
in-memory list, and a subsequent fetch returns exactly what a fetch before
the clear would have returned. -/
theorem c8_clear_is_local_noop (st : PanelState) (store : List StoredItem) :
    (clearResultsAction st).2 = [] ∧
    (clearResultsAction st).2.foldl applyStore store = store ∧
    (clearResultsAction st).1.surveys = [] ∧
    fetchSurveysStep (clearResultsAction st).1 (Except.ok store) =
      fetchSurveysStep st (Except.ok store) :=
  ⟨rfl, rfl, rfl, rfl⟩

/-- C9: a login request whose `usuario` is found in the user store but
whose password differs from the stored one answers 401 (unauthorized),
never the 500 server error. -/
theorem c9_wrong_password_is_401 (db : List UserRec) (usuario password : String)
    (user : UserRec) (hfind : findUser db usuario = some user)
    (hpw : user.password ≠ password) :
    loginHandler db usuario password = LoginResult.unauthorized ∧
    loginHandler db usuario password ≠ LoginResult.serverError := by
  have h : loginHandler db usuario password = LoginResult.unauthorized := by
    simp [loginHandler, hfind, hpw]
  exact ⟨h, by simp [h]⟩

/-- C9 witness: a concrete store with user `admin`/`secret` and a login
attempt with password `wrong`. -/
theorem c9_wrong_password_is_401_witness :
    findUser [({ usuario := "admin", email := "admin@x.com", password := "secret" } :
        UserRec)] "admin" =
      some { usuario := "admin", email := "admin@x.com", password := "secret" } ∧
    ({ usuario := "admin", email := "admin@x.com", password := "secret" } :
        UserRec).password ≠ "wrong" ∧
    (loginHandler [({ usuario := "admin", email := "admin@x.com", password := "secret" } :
        UserRec)] "admin" "wrong" = LoginResult.unauthorized ∧
      loginHandler [({ usuario := "admin", email := "admin@x.com", password := "secret" } :
        UserRec)] "admin" "wrong" ≠ LoginResult.serverError) :=
  ⟨by decide, by decide,
    c9_wrong_password_is_401
      [({ usuario := "admin", email := "admin@x.com", password := "secret" } : UserRec)]
      "admin" "wrong"
      { usuario := "admin", email := "admin@x.com", password := "secret" }
      (by decide) (by decide)⟩

/-- C4: joining any sequence of issue tags drawn from the fixed vocabulary
with `", "` at submission and then splitting the stored string on `", "`
at fetch reproduces the original tag sequence, order preserved; the empty
sequence round-trips to the empty set. -/
theorem c4_join_split_round_trip (ts : List String)
    (h : ∀ t ∈ ts, t ∈ issuesVocabulary) :
    fetchProblemas (joinProblemas ts) = ts := by
  cases ts with
  | nil => decide
  | cons t ts' =>
    have ht : t ∈ issuesVocabulary := h t (by simp)
    have htd : t.data ≠ [] := vocab_data_ne_nil t ht
    have hne : joinC ((t :: ts').map String.data) ≠ [] := by
      simpa using joinC_cons_ne_nil t.data (ts'.map String.data) htd
    have hmk : joinProblemas (t :: ts') ≠ "" := by
      rw [joinProblemas]
      simpa [mk_eq_empty_iff] using hne
    rw [fetchProblemas, if_neg hmk, joinProblemas]
    show (splitC (joinC ((t :: ts').map String.data))).map
      (fun l => (⟨l⟩ : String)) = t :: ts'
    rw [splitC_joinC ((t :: ts').map String.data) (by simp) ?hsep]
    case hsep =>
      intro x hx
      obtain ⟨s, hs, rfl⟩ := List.mem_map.mp hx
      exact vocab_no_sep s (h s hs)
    rw [List.map_map]
    have hcomp : ((fun l => (⟨l⟩ : String)) ∘ String.data) = id := funext fun _ => rfl
    rw [hcomp, List.map_id]

/-- C4 witness: the concrete tag sequence robo, iluminacion round-trips. -/
theorem c4_join_split_round_trip_witness :
    (∀ t ∈ ["robo", "iluminacion"], t ∈ issuesVocabulary) ∧
    fetchProblemas (joinProblemas ["robo", "iluminacion"]) = ["robo", "iluminacion"] :=
  ⟨by decide, c4_join_split_round_trip ["robo", "iluminacion"] (by decide)⟩

/-- C2 counterexample: the stored issues string `", "` splits into two
empty tokens; the claim says empty tokens are discarded (so no tag and
zero (record, tag) pairs), but the code counts the empty-string token
twice and its counts sum to 2. -/
theorem c2_issue_counts_counterexample :
    getCount (problemasStats (fetchSurveysMap
        [({ problemas := ", " } : StoredItem)])) "" = 2 ∧
    specIssueRecordCount [({ problemas := ", " } : StoredItem)] "" = 0 ∧
    sumValues (problemasStats (fetchSurveysMap
        [({ problemas := ", " } : StoredItem)])) = 2 ∧
    ([({ problemas := ", " } : StoredItem)].map
        (fun it => (specTags it.problemas).length)).sum = 0 := by
  decide

/-- C2 amended: `issueCounts` maps each token obtained by splitting a
record's non-empty stored issues string on `", "` (a fully empty string
contributes no tokens; empty tokens inside a non-empty string are kept,
not discarded) to its total number of occurrences across all records, and
the counts sum to the total number of (record, token) occurrences. -/
theorem c2_issue_counts_amended (items : List StoredItem) :
    (∀ tag : String,
      getCount (problemasStats (fetchSurveysMap items)) tag =
        (items.map (fun it => (fetchProblemas it.problemas).count tag)).sum) ∧
    sumValues (problemasStats (fetchSurveysMap items)) =
      (items.map (fun it => (fetchProblemas it.problemas).length)).sum := by
  constructor
  · intro tag
    rw [problemasStats_fetch, getCount_countMap, count_flatMap]
  · rw [problemasStats_fetch, sumValues_countMap, length_flatMap]

/-- C3 counterexample: with the numeric-string tags `"9"` and `"2"` (one
record each, both counts 1), `Object.entries` enumerates the integer-like
keys in ascending numeric order, so the code's tie order is `2, 9` while
the claim's encounter order is `9, 2`. -/
theorem c3_top_issues_counterexample :
    topIssues (fetchSurveysMap
        [({ problemas := "9" } : StoredItem), ({ problemas := "2" } : StoredItem)]) =
      [("2", 1), ("9", 1)] ∧
    specTopIssues (fetchSurveysMap
        [({ problemas := "9" } : StoredItem), ({ problemas := "2" } : StoredItem)]) =
      [("9", 1), ("2", 1)] ∧
    ([("2", 1), ("9", 1)] : List (String × Nat)) ≠ [("9", 1), ("2", 1)] := by
  decide

/-- C3 amended: whenever no issue tag is a JavaScript array-index string
(in particular for tags from the fixed vocabulary), `topIssues` is the
`issueCounts` entries in encounter order, stably sorted descending by
count, truncated to the first 5; for array-index tags the object
enumerates them first in ascending numeric order instead. -/
theorem c3_top_issues_amended (surveys : List Survey)
    (h : ∀ s ∈ surveys, ∀ t ∈ s.problemas, isArrayIndexKey t = false) :
    topIssues surveys = specTopIssues surveys := by
  rw [topIssues, specTopIssues, jsEntries_of_no_index]
  intro e he
  rw [problemasStats] at he
  have hk := mem_keys_countMap (List.mem_map_of_mem (fun e => e.1) he)
  obtain ⟨s, hs, ht⟩ := List.mem_flatMap.mp hk
  exact h s hs e.1 ht

/-- C3 witness: the spec's example scenario (ratings 5/3/4 with issue
strings "robo, iluminacion", "", "robo"). -/
theorem c3_top_issues_amended_witness :
    (∀ s ∈ fetchSurveysMap
        [({ problemas := "robo, iluminacion", calificacion := "5" } : StoredItem),
          ({ problemas := "", calificacion := "3" } : StoredItem),
          ({ problemas := "robo", calificacion := "4" } : StoredItem)],
      ∀ t ∈ s.problemas, isArrayIndexKey t = false) ∧
    topIssues (fetchSurveysMap
        [({ problemas := "robo, iluminacion", calificacion := "5" } : StoredItem),
          ({ problemas := "", calificacion := "3" } : StoredItem),
          ({ problemas := "robo", calificacion := "4" } : StoredItem)]) =
      specTopIssues (fetchSurveysMap
        [({ problemas := "robo, iluminacion", calificacion := "5" } : StoredItem),
          ({ problemas := "", calificacion := "3" } : StoredItem),
          ({ problemas := "robo", calificacion := "4" } : StoredItem)]) :=
  ⟨by decide, c3_top_issues_amended _ (by decide)⟩

/-- Sanity check of the binary64 model on an exactly representable value:
rounding the integer 3 is the identity. -/
theorem roundDouble_three : roundDouble (3 : ℚ) = 3 := by
  have h0 : (3 : ℚ) ≠ 0 := by norm_num
  rw [roundDouble, if_neg h0]
  have hn : (3 : ℚ).num = 3 := rfl
  have hd : (3 : ℚ).den = 1 := rfl
  rw [hn, hd]
  have hkt : roundDoubleKT 3 1 = (6755399441055744, -51) := by decide
  rw [hkt]
  have ha : assembleKT (6755399441055744, -51) = (6755399441055744 : ℚ) / 2 ^ 51 := by
    simp [assembleKT]
  rw [ha]
  norm_num

/-- The binade boundary the binary64 model must reproduce: the double
nearest 87/20 = 4.35 is 4897664594765414 / 2 ^ 50, strictly below 4.35,
so toFixed(1) yields 4.3 and not the 4.4 that exact rational rounding
would give. -/
theorem toFixed1_roundDouble_binade :
    toFixed1 (roundDouble ((87 : ℚ) / 20)) = 43 / 10 := by
  have hq : ((87 : ℚ) / 20) = Rat.mk' 87 20 (by norm_num) (by norm_num) := by
    rw [Rat.mk'_eq_divInt, Rat.divInt_eq_div]
    norm_num
  rw [hq, roundDouble]
  rw [if_neg (by rw [← hq]; norm_num)]
  have hkt : roundDoubleKT (Rat.mk' 87 20 (by norm_num) (by norm_num) : ℚ).num
      (Rat.mk' 87 20 (by norm_num) (by norm_num) : ℚ).den = (4897664594765414, -50) := by
    decide
  rw [hkt]
  have ha : assembleKT (4897664594765414, -50) = (4897664594765414 : ℚ) / 2 ^ 50 := by
    simp [assembleKT]
  rw [ha, toFixed1]
  have hfl : ⌊10 * ((4897664594765414 : ℚ) / 2 ^ 50) + 1 / 2⌋ = 43 := by
    rw [Int.floor_eq_iff]
    norm_num
  rw [hfl]
  norm_num

/-- End-to-end check of the same binade boundary through the program
model: 13 ratings of "4" and 7 of "5" (sum 87, count 20) average to 4.3,
as the program prints, not 4.4. -/
theorem promedio_binade_example :
    promedioCalificacion (fetchSurveysMap
        (List.replicate 13 ({ calificacion := "4" } : StoredItem) ++
          List.replicate 7 ({ calificacion := "5" } : StoredItem))) =
      some (43 / 10) := by
  have h1 : totalCalificaciones (calificacionStats (fetchSurveysMap
      (List.replicate 13 ({ calificacion := "4" } : StoredItem) ++
        List.replicate 7 ({ calificacion := "5" } : StoredItem)))) = some 87 := by
    decide
  have h2 : (0 : Nat) < (fetchSurveysMap
      (List.replicate 13 ({ calificacion := "4" } : StoredItem) ++
        List.replicate 7 ({ calificacion := "5" } : StoredItem))).length := by decide
  have h3 : (fetchSurveysMap
      (List.replicate 13 ({ calificacion := "4" } : StoredItem) ++
        List.replicate 7 ({ calificacion := "5" } : StoredItem))).length = 20 := by decide
  rw [promedioCalificacion, if_pos h2, h1, h3]
  show some (toFixed1 (roundDouble (((87 : ℤ) : ℚ) / ((20 : ℕ) : ℚ)))) =
    some (43 / 10)
  have hq : ((87 : ℤ) : ℚ) / ((20 : ℕ) : ℚ) = (87 : ℚ) / 20 := by norm_num
  rw [hq, toFixed1_roundDouble_binade]

/-- C1 counterexample: one stored record whose rating field is empty.  The
claim says a missing rating contributes 0 to the sum, giving average 0;
the code's fetch defaults the missing rating to `"3"`, giving average 3.0. -/
theorem c1_average_counterexample :
    promedioCalificacion (fetchSurveysMap [({ calificacion := "" } : StoredItem)]) =
      some 3 ∧
    averageRatingSpec [({ calificacion := "" } : StoredItem)] = 0 ∧
    some (3 : ℚ) ≠ some (0 : ℚ) := by
  refine ⟨?_, ?_, by norm_num⟩
  · have h1 : totalCalificaciones (calificacionStats (fetchSurveysMap
        [({ calificacion := "" } : StoredItem)])) = some 3 := by decide
    have h2 : (0 : Nat) < (fetchSurveysMap
        [({ calificacion := "" } : StoredItem)]).length := by decide
    have h3 : (fetchSurveysMap [({ calificacion := "" } : StoredItem)]).length = 1 := by
      decide
    rw [promedioCalificacion, if_pos h2, h1, h3]
    show some (toFixed1 (roundDouble (((3 : ℤ) : ℚ) / ((1 : ℕ) : ℚ)))) = some 3
    have hq : ((3 : ℤ) : ℚ) / ((1 : ℕ) : ℚ) = (3 : ℚ) := by norm_num
    rw [hq, roundDouble_three]
    norm_num [toFixed1]
  · have hp : parseIntJS "" = none := by decide
    rw [averageRatingSpec]
    norm_num [hp, toFixed1]

/-- C1 amended: over record sequences of fewer than 2^32 records (the
JavaScript array-length cap) in which every stored rating is either empty
or parses to an integer between 1 and 5 (the questionnaire's rating
domain), the code's average is the sum of the fetched ratings (an empty
stored rating is defaulted to `"3"` at fetch, not to 0) divided by the
record count as binary64 doubles, the quotient then rounded to one
decimal place; the empty sequence gives 0, and no rating value can make
the aggregation throw (a non-empty unparsable rating yields the NaN
average, modelled as `none`).  Under these bounds every integer the
program handles before the division — the parsed ratings, the per-entry
products and the running sums (all below `5 * 2^32 < 2^53`) — is exact in
binary64, so the only rounding is the division itself, modelled by
`roundDouble`. -/
theorem c1_average_amended (items : List StoredItem)
    (hcap : items.length < 2 ^ 32)
    (h : ∀ it ∈ items, it.calificacion = "" ∨
      ((parseIntJS it.calificacion).isSome = true ∧
        1 ≤ (parseIntJS it.calificacion).getD 0 ∧
        (parseIntJS it.calificacion).getD 0 ≤ 5)) :
    promedioCalificacion (fetchSurveysMap items) =
      some (if items.length = 0 then 0
        else toFixed1 (roundDouble
          ((((items.map (fun it =>
                (parseIntJS (if it.calificacion = "" then "3"
                  else it.calificacion)).getD 0)).sum : ℤ) : ℚ) /
            (items.length : ℚ)))) := by
  rcases Nat.eq_zero_or_pos items.length with hlen | hlen
  · have hnil : items = [] := List.length_eq_zero.mp hlen
    subst hnil
    simp [promedioCalificacion, fetchSurveysMap]
  · have hpos : 0 < (fetchSurveysMap items).length := by
      rw [fetchSurveysMap, List.length_map]
      exact hlen
    have hstats : calificacionStats (fetchSurveysMap items) =
        countMap (items.map (fun it =>
          if it.calificacion = "" then "3" else it.calificacion)) := by
      rw [calificacionStats, calificacion_fetchMap]
    have hparse : ∀ e ∈ countMap (items.map (fun it =>
        if it.calificacion = "" then "3" else it.calificacion)),
        (parseIntJS e.1).isSome = true := by
      intro e he
      have hk := mem_keys_countMap (List.mem_map_of_mem (fun e => e.1) he)
      obtain ⟨it, hit, heq⟩ := List.mem_map.mp hk
      by_cases hc : it.calificacion = ""
      · rw [← heq, if_pos hc]
        decide
      · rw [← heq, if_neg hc]
        rcases h it hit with h' | h'
        · exact absurd h' hc
        · exact h'.1
    rw [promedioCalificacion, if_pos hpos, hstats,
      totalCalificaciones_eq_some _ hparse, totalOf_countMap]
    rw [if_neg hlen.ne', fetchSurveysMap, List.length_map, List.map_map]
    rfl

/-- C1 witness: two stored records with ratings "5" and "" (the latter
defaulted to "3" at fetch): apply the amended theorem at this input. -/
theorem c1_average_amended_witness :
    ([({ calificacion := "5" } : StoredItem),
        ({ calificacion := "" } : StoredItem)] : List StoredItem).length < 2 ^ 32 ∧
    (∀ it ∈ [({ calificacion := "5" } : StoredItem),
        ({ calificacion := "" } : StoredItem)],
      it.calificacion = "" ∨
        ((parseIntJS it.calificacion).isSome = true ∧
          1 ≤ (parseIntJS it.calificacion).getD 0 ∧
          (parseIntJS it.calificacion).getD 0 ≤ 5)) ∧
    promedioCalificacion (fetchSurveysMap
        [({ calificacion := "5" } : StoredItem),
          ({ calificacion := "" } : StoredItem)]) =
      some (if ([({ calificacion := "5" } : StoredItem),
            ({ calificacion := "" } : StoredItem)] : List StoredItem).length = 0 then 0
        else toFixed1 (roundDouble
          (((([({ calificacion := "5" } : StoredItem),
                ({ calificacion := "" } : StoredItem)].map (fun it =>
                  (parseIntJS (if it.calificacion = "" then "3"
                    else it.calificacion)).getD 0)).sum : ℤ) : ℚ) /
            (([({ calificacion := "5" } : StoredItem),
                ({ calificacion := "" } : StoredItem)] : List StoredItem).length : ℚ)))) :=
  ⟨by decide, by decide, c1_average_amended _ (by decide) (by decide)⟩

/-- C10: every record contributes exactly one occurrence to each of the two
frequency tables, whatever its values: the counts of `seguridadStats` sum
to the record count, and so do the counts of `calificacionStats`. -/
theorem c10_partition_counts (surveys : List Survey) :
    sumValues (seguridadStats surveys) = surveys.length ∧
    sumValues (calificacionStats surveys) = surveys.length := by
  constructor
  · rw [seguridadStats, sumValues_countMap, List.length_map]
  · rw [calificacionStats, sumValues_countMap, List.length_map]

end EncuestaMercado
